import Mathlib

/-!
Verification of the Micronova storage-controller simulators
(`NOVA/micronova_dhp.c`, the 6095 hard-disk controller, and
`NOVA/micronova_dkt.c`, the 6038/6039 floppy controller).

The C modules are shallowly embedded: each register is a `Nat` holding a
16-bit value, each unit is a record of the fields the C code keeps in the
`UNIT` structure (`flags & UNIT_ATT`, `flags & UNIT_WPRT`, `u3`/FUNC,
`u4`/CYL, `u5`/SECT, and whether `sim_is_active` holds, i.e. whether an
event is queued for the unit).  The discrete-event scheduler is modelled
by returning the delay passed to `sim_activate` (`none` when nothing is
scheduled); backing-file and memory traffic is modelled as a trace of
actions.  C shift/mask field extraction on non-negative values is written
with `/`, `%`, `*` (`x >> k` is `x / 2^k`, `x & (2^k - 1)` is `x % 2^k`);
register updates that OR possibly-overlapping fields keep `|||` exactly
as the source does.
-/

namespace DHP

/-- Drive-geometry descriptor, `struct drvtyp` of micronova_dhp.c. -/
structure Drvtyp where
  sect : Nat
  surf : Nat
  cyl  : Nat
  size : Nat
  newf : Bool
  deriving DecidableEq, Repr

/-- The single entry of `drv_tab`: the 6095 drive
(`SECT_6095 = 12`, `SURF_6095 = 4`, `CYL_6095 = 408`, old format). -/
def drv6095 : Drvtyp := ⟨12, 4, 408, 12 * 4 * 408 * 256, false⟩

/-- `FCCY_READ` -/
def FCCY_READ : Nat := 0
/-- `FCCY_WRITE` -/
def FCCY_WRITE : Nat := 1
/-- `FCCY_SEEK` -/
def FCCY_SEEK : Nat := 2
/-- `FCCY_RECAL` -/
def FCCY_RECAL : Nat := 3

/-- `STA_ERR` (octal 1). -/
def STA_ERR : Nat := 1
/-- `STA_DLT` (octal 2). -/
def STA_DLT : Nat := 2
/-- `STA_CRC` (octal 4). -/
def STA_CRC : Nat := 4
/-- `STA_UNS` (octal 10). -/
def STA_UNS : Nat := 8
/-- `STA_XCY` (octal 20). -/
def STA_XCY : Nat := 16
/-- `STA_CYL` (octal 40). -/
def STA_CYL : Nat := 32
/-- `STA_DRDY` (octal 100). -/
def STA_DRDY : Nat := 64
/-- `STA_SEEK0` (octal 2000); unit u uses `STA_SEEK0 >> u`. -/
def STA_SEEK0 : Nat := 1024
/-- `STA_SKDN0` (octal 40000); unit u uses `STA_SKDN0 >> u`. -/
def STA_SKDN0 : Nat := 16384
/-- `STA_DONE` (octal 100000). -/
def STA_DONE : Nat := 32768
/-- `STA_EFLGS = STA_ERR|STA_DLT|STA_CRC|STA_UNS|STA_XCY|STA_CYL` = 63. -/
def STA_EFLGS : Nat := 63
/-- `STA_DFLGS = STA_DONE|STA_SKDN0|STA_SKDN1|STA_SKDN2|STA_SKDN3` = 63488. -/
def STA_DFLGS : Nat := 63488

/-- `GET_COUNT(x) = (x >> 0) & 017`. -/
def GET_COUNT (x : Nat) : Nat := x % 16

/-- `GET_SECT(x,dt)`: new format `(x >> 4) & 037`, old format `(x >> 4) & 017`. -/
def GET_SECT (dt : Drvtyp) (x : Nat) : Nat :=
  if dt.newf then x / 16 % 32 else x / 16 % 16

/-- `GET_SURF(x,dt)`: new format `(x >> 9) & 037`, old format `(x >> 8) & 077`. -/
def GET_SURF (dt : Drvtyp) (x : Nat) : Nat :=
  if dt.newf then x / 512 % 32 else x / 256 % 64

/-- `GET_UNIT(x) = (x >> 14) & 03`. -/
def GET_UNIT (x : Nat) : Nat := x / 16384 % 4

/-- `GET_CMD(x,dt)`: new format `(x >> 9) & 3`, old format `(x >> 8) & 3`. -/
def GET_CMD (dt : Drvtyp) (x : Nat) : Nat :=
  if dt.newf then x / 512 % 4 else x / 256 % 4

/-- `GET_CYL(x,dt)`: new format `x & 0777`; old format
`(x & 0377) | ((x & FCCY_OCEX) >> 2)` — the cylinder-extend bit 10 is
shifted down to bit 8 and OR-ed onto the disjoint 8-bit cylinder field. -/
def GET_CYL (dt : Drvtyp) (x : Nat) : Nat :=
  if dt.newf then x % 512 else x % 256 + x / 1024 % 2 * 256

/-- `DHP_UPDATE_USSC(type, count, surf, sect)`: keeps the unit field
(`ussc & USSC_UNIT`, mask 0140000 = 49152), adds `count` into the 4-bit
count field, and ORs the surface and sector fields back in *unmasked*
(the source warns: "no sector or surface masking is done!"). -/
def UPDATE_USSC (dt : Drvtyp) (ussc cnt sf sc : Nat) : Nat :=
  (ussc &&& 49152) ||| ((ussc + cnt) &&& 15) |||
    (if dt.newf then (sf <<< 9) ||| (sc <<< 4) else (sf <<< 8) ||| (sc <<< 4))

/-- `GET_SA(cy,sf,sc,t)` — the linear block address. -/
def GET_SA (dt : Drvtyp) (cy sf sc : Nat) : Nat :=
  (cy * dt.surf + sf) * dt.sect + sc

/-- One drive unit of the DHP device: the fields of simh `UNIT` the module
uses (`UNIT_ATT`, `UNIT_WPRT`, `u3`/FUNC, `u4`/CYL) plus whether an event
is queued for it (`sim_is_active`). -/
structure DhpUnit where
  att    : Bool
  wprt   : Bool
  func   : Nat
  cyl    : Nat
  active : Bool
  deriving DecidableEq, Repr

/-- DHP controller state: the global registers of micronova_dhp.c and the
four entries of `dhp_unit[]` (the USSC unit field is two bits wide, so
units 0..3 are all selectable, although `DHP_NUMDR = 1`). -/
structure DhpState where
  fccy : Nat
  ussc : Nat
  ma   : Nat
  map  : Nat
  sta  : Nat
  diagmode : Bool
  busy : Bool
  done : Bool
  units : Fin 4 → DhpUnit
  deriving DecidableEq

/-- The unit selected by the USSC register (`dhp_dev.units + GET_UNIT (dhp_ussc)`). -/
def selUnit (s : DhpState) : Fin 4 :=
  ⟨GET_UNIT s.ussc, Nat.mod_lt _ (by norm_num)⟩

/-- 16-bit masked bit-clear, `x & ~m` on the 16-bit register contents. -/
def clear16 (x m : Nat) : Nat := x &&& (65535 ^^^ m)

/-- The `ioDIA` case of `dhp()`: keep the error flags, recompute
`STA_DRDY` from attachment, OR in `STA_CYL` when the unit's cylinder is
out of range, derive `STA_ERR` from the error flags, and return the
status.  Returns (new state, returned AC value). -/
def dhp_dia (s : DhpState) : DhpState × Nat :=
  let uptr := s.units (selUnit s)
  let sta := clear16 s.sta STA_DRDY
  let sta := if uptr.att then sta ||| STA_DRDY else sta
  let sta := if uptr.cyl ≥ drv6095.cyl then sta ||| STA_CYL else sta
  let sta := if sta &&& STA_EFLGS ≠ 0 then sta ||| STA_ERR else sta
  ({ s with sta := sta }, sta)

/-- The `iopC` (clear pulse) case of `dhp()`: clear device busy and done,
clear the controller done and error flags, and cancel the selected
unit's queued event unless its pending function is a seek
(`if (dhp_unit[u].FUNC != FCCY_SEEK) sim_cancel (&dhp_unit[u])`). -/
def dhp_clear (s : DhpState) : DhpState :=
  let u := selUnit s
  let s := { s with busy := false, done := false,
                    sta := clear16 s.sta (STA_DFLGS + STA_EFLGS) }
  if (s.units u).func ≠ FCCY_SEEK then
    { s with units := Function.update s.units u { s.units u with active := false } }
  else s

/-- `iopS` start pulse. -/
def iopS : Nat := 1
/-- `iopC` clear pulse. -/
def iopC : Nat := 2
/-- `iopP` special pulse. -/
def iopP : Nat := 3

/-- `dhp_go`: command dispatch.  `swait`/`rwait` are the settable
`dhp_swait`/`dhp_rwait` latency registers.  The result is the new state,
the delay handed to `sim_activate` for the selected unit (`none` when
nothing is scheduled), and the C routine's TRUE/FALSE return value.
Backing-store effects do not occur here.  The source assigns
`uptr->FUNC`/`uptr->CYL` before validating, so the unit keeps the decoded
command and cylinder even on a rejected command. -/
def dhp_go (swait rwait : Nat) (pulse : Nat) (s : DhpState) : DhpState × Option Nat × Bool :=
  let s := { s with sta := clear16 s.sta STA_EFLGS }
  let u := selUnit s
  let uptr := s.units u
  if ¬uptr.att ∨ uptr.active then
    ({ s with sta := s.sta ||| STA_ERR }, none, false)
  else if s.diagmode then
    ({ s with sta := s.sta ||| STA_DONE, busy := false, done := true }, none, true)
  else
    let oldCyl := uptr.cyl
    let func0 := GET_CMD drv6095 s.fccy
    let cyl0 := GET_CYL drv6095 s.fccy
    if func0 = FCCY_READ ∨ func0 = FCCY_WRITE then
      let uptr := { uptr with func := func0, cyl := cyl0 }
      let s := { s with units := Function.update s.units u uptr }
      let sta :=
        if ¬uptr.att ∨ (uptr.wprt ∧ uptr.func = FCCY_WRITE) then
          s.sta ||| (STA_DONE ||| STA_ERR)
        else if uptr.cyl ≥ drv6095.cyl then
          s.sta ||| (STA_DONE ||| STA_ERR ||| STA_CYL)
        else if GET_SURF drv6095 s.ussc ≥ drv6095.surf then
          s.sta ||| (STA_DONE ||| STA_ERR ||| STA_UNS)
        else if GET_SECT drv6095 s.ussc ≥ drv6095.sect then
          s.sta ||| (STA_DONE ||| STA_ERR ||| STA_XCY)
        else s.sta
      let s := { s with sta := sta }
      if pulse ≠ iopS ∨ sta &&& STA_ERR ≠ 0 then (s, none, false)
      else
        ({ s with units := Function.update s.units u { uptr with active := true } },
         some rwait, true)
    else
      -- FCCY_RECAL saves FCCY_SEEK with cylinder 0 and falls into the seek case
      let fc := if func0 = FCCY_RECAL then (FCCY_SEEK, 0) else (func0, cyl0)
      let uptr := { uptr with func := fc.1, cyl := fc.2 }
      let s := { s with units := Function.update s.units u uptr }
      let sta :=
        if ¬uptr.att then s.sta ||| (STA_DONE ||| STA_ERR)
        else if uptr.cyl ≥ drv6095.cyl then s.sta ||| (STA_ERR ||| STA_CYL)
        else s.sta
      let s := { s with sta := sta }
      if pulse ≠ iopP ∨ sta &&& STA_ERR ≠ 0 then (s, none, false)
      else
        let s := { s with sta := sta ||| STA_SEEK0 / 2 ^ u.val }
        let d := ((oldCyl : Int) - (fc.2 : Int)).natAbs
        let d := if swait ≠ 0 ∧ d = 0 then 1 else d
        ({ s with units := Function.update s.units u { uptr with active := true } },
         some (swait * d), true)

/-- The `do { ... } while (GET_COUNT(dhp_ussc))` read/write loop of
`dhp_svc`, with its top-of-iteration sector-overflow handling.  Transfers
are recorded as the list of linear block addresses touched; backing-store
I/O failures and the per-word memory mapping are outside the model.  One
unit of fuel is consumed per iteration; the count field is 4 bits wide so
16 units of fuel always suffice.  Returns (ussc, sta, transferred
addresses). -/
def dhp_rwLoop (cyl : Nat) : Nat → Nat → Nat → List Nat → Nat × Nat × List Nat
  | 0, ussc, sta, acc => (ussc, sta, acc)
  | fuel + 1, ussc, sta, acc =>
    let chk :=
      if GET_SECT drv6095 ussc ≥ drv6095.sect then
        -- sector overflows to 0, surface is incremented (masked to its field)
        let newsurf := (GET_SURF drv6095 ussc + 1) &&& 63
        let ussc1 := UPDATE_USSC drv6095 ussc 0 newsurf 0
        (ussc1, decide (GET_SURF drv6095 ussc1 ≥ drv6095.surf))
      else (ussc, false)
    if chk.2 then
      -- surface overflow: hard error, the loop breaks in place
      (chk.1, sta ||| (STA_DONE ||| STA_ERR ||| STA_XCY), acc)
    else
      let ussc := chk.1
      let sa := GET_SA drv6095 cyl (GET_SURF drv6095 ussc) (GET_SECT drv6095 ussc)
      let acc := acc ++ [sa]
      let newsect := GET_SECT drv6095 ussc + 1
      let newsurf := GET_SURF drv6095 ussc
      let ussc := UPDATE_USSC drv6095 ussc 1 newsurf newsect
      if GET_COUNT ussc ≠ 0 then dhp_rwLoop cyl fuel ussc sta acc
      else (ussc, sta, acc)

/-- The read/write arm of `dhp_svc`: re-validation (attachment,
write-protect, cylinder, surface, sector — the bad-cylinder branch ORs
its bits twice, which is idempotent) followed by the transfer loop and
the final `dhp_sta |= STA_DONE`.  Returns (ussc, sta, transferred
addresses). -/
def dhp_svc_rw (uptr : DhpUnit) (ussc sta : Nat) : Nat × Nat × List Nat :=
  if ¬uptr.att ∨ (uptr.wprt ∧ uptr.func = FCCY_WRITE) then
    (ussc, sta ||| (STA_DONE ||| STA_ERR), [])
  else if uptr.cyl ≥ drv6095.cyl then
    (ussc, sta ||| (STA_DONE ||| STA_ERR ||| STA_CYL) ||| (STA_ERR ||| STA_CYL), [])
  else if GET_SURF drv6095 ussc ≥ drv6095.surf then
    (ussc, sta ||| (STA_DONE ||| STA_ERR ||| STA_UNS), [])
  else if GET_SECT drv6095 ussc ≥ drv6095.sect then
    (ussc, sta ||| (STA_DONE ||| STA_ERR ||| STA_XCY), [])
  else
    let r := dhp_rwLoop uptr.cyl 16 ussc sta []
    (r.1, r.2.1 ||| STA_DONE, r.2.2)

/-- The seek arm of `dhp_svc`: re-validate, set the per-unit seek-done
bit and clear the seeking bit.  Returns the new status register. -/
def dhp_svc_seek (u : Fin 4) (uptr : DhpUnit) (sta : Nat) : Nat :=
  let sta :=
    if ¬uptr.att then sta ||| (STA_DONE ||| STA_ERR)
    else if uptr.cyl ≥ drv6095.cyl then sta ||| (STA_ERR ||| STA_CYL)
    else sta
  clear16 (sta ||| STA_SKDN0 / 2 ^ u.val) (STA_SEEK0 / 2 ^ u.val)

/-- `dhp_reset`: clear busy/done, zero every controller register, and —
looping over `DHP_NUMDR = 1` drives — cancel unit 0's event and zero its
cylinder and function.  The three further selectable entries of
`dhp_unit[]` are not touched by the loop. -/
def dhp_reset (s : DhpState) : DhpState :=
  let s := { s with busy := false, done := false,
                    fccy := 0, ussc := 0, ma := 0, sta := 0,
                    diagmode := false, map := 0 }
  let u0 := { s.units 0 with active := false, cyl := 0, func := 0 }
  { s with units := Function.update s.units 0 u0 }

end DHP

namespace DKT

/-- Drive geometry of the 6038 floppy, the single `drv_tab` entry:
8 sectors, 1 surface, 77 cylinders. -/
def SECT_6038 : Nat := 8
/-- Surfaces per cylinder of the 6038. -/
def SURF_6038 : Nat := 1
/-- Cylinders of the 6038. -/
def CYL_6038 : Nat := 77

/-- `GET_SA(cy,sf,sc,t)` for the 6038 geometry. -/
def GET_SA (cy sf sc : Nat) : Nat := (cy * SURF_6038 + sf) * SECT_6038 + sc

/-- `SC_6038_SETTLE` (octal 000). -/
def SC_6038_SETTLE : Nat := 0
/-- `SC_6038_STEPOUT` (octal 001). -/
def SC_6038_STEPOUT : Nat := 1
/-- `SC_6038_STEPIN` (octal 002). -/
def SC_6038_STEPIN : Nat := 2
/-- `SC_6038_READPREAMB` (octal 010). -/
def SC_6038_READPREAMB : Nat := 8
/-- `SC_6038_READNEXT` (octal 020). -/
def SC_6038_READNEXT : Nat := 16
/-- `SC_6038_WRITENEXT` (octal 040). -/
def SC_6038_WRITENEXT : Nat := 32
/-- `SC_6038_FORMAT0` (octal 240). -/
def SC_6038_FORMAT0 : Nat := 160
/-- `SC_6038_FORMATNEXT` (octal 241). -/
def SC_6038_FORMATNEXT : Nat := 161

/-- `SC_6038_GET_CMD(x) = (x >> 0) & 0377`. -/
def SC_6038_GET_CMD (x : Nat) : Nat := x % 256
/-- `SC_6038_GET_SECT(x) = (x >> 8) & 07`. -/
def SC_6038_GET_SECT (x : Nat) : Nat := x / 256 % 8
/-- `SC_6038_GET_UNIT(x) = (x >> 15) & 01`. -/
def SC_6038_GET_UNIT (x : Nat) : Nat := x / 32768 % 2

/-- `STA_6038_TRACK0` (octal 040000). -/
def STA_6038_TRACK0 : Nat := 16384
/-- `STA_6038_HEADON` (octal 020000). -/
def STA_6038_HEADON : Nat := 8192
/-- `STA_6038_WRITEPROT` (octal 001000). -/
def STA_6038_WRITEPROT : Nat := 512
/-- `STA_6038_DRIVESTAT` (octal 000200). -/
def STA_6038_DRIVESTAT : Nat := 128
/-- `STA_6038_ILLEGAL` (octal 000040). -/
def STA_6038_ILLEGAL : Nat := 32
/-- `STA_6038_SECTORERR` (octal 000020) — sector address mismatch. -/
def STA_6038_SECTORERR : Nat := 16
/-- `STA_6038_CHECKWORDERR` (octal 000010). -/
def STA_6038_CHECKWORDERR : Nat := 8
/-- `STA_6038_DATALATE` (octal 000004). -/
def STA_6038_DATALATE : Nat := 4
/-- `STA_6038_WRITEFAULT` (octal 000002) — error during write. -/
def STA_6038_WRITEFAULT : Nat := 2
/-- `STA_6038_ERROR` (octal 000001) — aggregate error bit. -/
def STA_6038_ERROR : Nat := 1
/-- `STA_EFLGS` of micronova_dkt.c: all error flags = 191. -/
def STA_EFLGS : Nat := 191
/-- `STA_FLGS_SCLR`: error flags cleared by the start pulse = 63. -/
def STA_FLGS_SCLR : Nat := 63
/-- `STA_FLGS_GENERAL_ERROR` = 62. -/
def STA_FLGS_GENERAL_ERROR : Nat := 62

/-- `CA_6038_SETADDR(trk, sect) = ((trk & 0177) << 8) | ((sect & 07) << 2)`. -/
def CA_6038_SETADDR (trk sect : Nat) : Nat :=
  ((trk &&& 127) <<< 8) ||| ((sect &&& 7) <<< 2)

/-- `DKT_SIM_SECTORTIME`: rotation-timer period. -/
def DKT_SIM_SECTORTIME : Nat := 500
/-- `DKT_SIM_ADDRTIME`: address (preamble) latency. -/
def DKT_SIM_ADDRTIME : Nat := 5
/-- `DKT_SIM_DATATIME`: full-sector data latency. -/
def DKT_SIM_DATATIME : Nat := 490

/-- `AMASK`: the NOVA 15-bit memory address mask (octal 077777). -/
def AMASK : Nat := 32767

/-- One floppy drive: attachment, write-protect, `u3`/FUNC, `u4`/CYL
(track), `u5`/SECT (sector currently under the head), and whether an
event is queued for it. -/
structure DktUnit where
  att    : Bool
  wprt   : Bool
  func   : Nat
  cyl    : Nat
  sect   : Nat
  active : Bool
  deriving DecidableEq, Repr

/-- DKT controller state: registers of micronova_dkt.c, the two drives,
and whether the rotation-timer unit has a queued event. -/
structure DktState where
  sc  : Nat
  ma  : Nat
  ca  : Nat
  romaddr : Nat
  sta : Nat
  busy : Bool
  done : Bool
  units : Fin 2 → DktUnit
  tmrActive : Bool
  deriving DecidableEq

/-- The drive selected by the specify-command register. -/
def selUnit (s : DktState) : Fin 2 :=
  ⟨SC_6038_GET_UNIT s.sc, Nat.mod_lt _ (by norm_num)⟩

/-- 16-bit masked bit-clear, `x & ~m` on 16-bit register contents. -/
def clear16 (x m : Nat) : Nat := x &&& (65535 ^^^ m)

/-- Backing-file / memory traffic of one `dkt_svc` activation:
`readSector sa` is an `fxread` of one sector at linear block address
`sa` followed by the word-by-word memory store; `writeSector sa` reads
256 words from memory and does the `fxwrite`. -/
inductive DktAction where
  | readSector (sa : Nat)
  | writeSector (sa : Nat)
  deriving DecidableEq, Repr

/-- `dkt_go`: floppy command dispatch.  `settle`/`step`/`rwait` are the
`dkt_settle`/`dkt_step`/`dkt_rwait` latency registers.  Returns the new
state, the delay handed to `sim_activate` for the selected unit, and the
TRUE/FALSE return value.  Preamble/read-next/write-next are armed (FUNC
saved) but not scheduled here — the rotation timer schedules them.  In
the write-protected format case the source does
`dkt_sta = dkt_sta & STA_6038_WRITEPROT` (a bitwise AND). -/
def dkt_go (settle step rwait : Nat) (s : DktState) : DktState × Option Nat × Bool :=
  let s := { s with sta := clear16 s.sta STA_EFLGS }
  let u := selUnit s
  let uptr := s.units u
  if ¬uptr.att ∨ uptr.active then
    ({ s with sta := s.sta ||| STA_6038_ERROR }, none, false)
  else
    let func := SC_6038_GET_CMD s.sc
    let uptr := { uptr with func := func }
    let s := { s with units := Function.update s.units u uptr }
    if func = SC_6038_SETTLE then
      ({ s with units := Function.update s.units u { uptr with active := true } },
       some settle, true)
    else if func = SC_6038_STEPIN ∨ func = SC_6038_STEPOUT then
      ({ s with units := Function.update s.units u { uptr with active := true } },
       some step, true)
    else if func = SC_6038_FORMAT0 ∨ func = SC_6038_FORMATNEXT then
      if uptr.wprt then
        ({ s with sta := s.sta &&& STA_6038_WRITEPROT }, none, false)
      else
        ({ s with units := Function.update s.units u { uptr with active := true } },
         some rwait, true)
    else
      (s, none, true)

/-- `dkt_svc`: event service for drive `u`.  Returns the new state and
the backing-file traffic performed.  I/O errors (`fseek`/`ferror`) are
modelled as absent. -/
def dkt_svc (u : Fin 2) (s : DktState) : DktState × List DktAction :=
  let uptr := s.units u
  let step1 : DktState × List DktAction :=
    if uptr.func = SC_6038_SETTLE then
      ({ s with sta := s.sta ||| STA_6038_HEADON }, [])
    else if uptr.func = SC_6038_STEPIN then
      ({ s with units := Function.update s.units u { uptr with cyl := uptr.cyl + 1 },
                sta := clear16 s.sta STA_6038_TRACK0 }, [])
    else if uptr.func = SC_6038_STEPOUT then
      let newcyl := if uptr.cyl ≠ 0 then uptr.cyl - 1 else uptr.cyl
      let sta := if newcyl = 0 then s.sta ||| STA_6038_TRACK0 else s.sta
      ({ s with units := Function.update s.units u { uptr with cyl := newcyl },
                sta := sta }, [])
    else if uptr.func = SC_6038_READPREAMB then
      ({ s with ca := CA_6038_SETADDR uptr.cyl uptr.sect }, [])
    else if uptr.func = SC_6038_READNEXT ∨ uptr.func = SC_6038_WRITENEXT then
      let s := { s with ca := CA_6038_SETADDR uptr.cyl uptr.sect }
      if uptr.sect ≠ SC_6038_GET_SECT s.sc then
        ({ s with sta := s.sta ||| STA_6038_SECTORERR }, [])
      else
        let sa := GET_SA uptr.cyl 0 uptr.sect
        if uptr.func = SC_6038_READNEXT then
          ({ s with ma := (s.ma + 256) &&& AMASK }, [DktAction.readSector sa])
        else
          ({ s with ma := (s.ma + 256) &&& AMASK }, [DktAction.writeSector sa])
    else if uptr.func = SC_6038_FORMAT0 ∨ uptr.func = SC_6038_FORMATNEXT then
      (s, [])
    else
      ({ s with sta := s.sta ||| STA_6038_ILLEGAL ||| STA_6038_ERROR }, [])
  let s1 := step1.1
  let s2 :=
    if (s1.units u).cyl = 0 then { s1 with sta := s1.sta ||| STA_6038_TRACK0 }
    else { s1 with sta := clear16 s1.sta STA_6038_TRACK0 }
  let s3 :=
    if s2.sta &&& STA_FLGS_GENERAL_ERROR ≠ 0 then
      { s2 with sta := s2.sta ||| STA_6038_ERROR }
    else s2
  ({ s3 with busy := false, done := true }, step1.2)

/-- `dkt_tmrsvc`: the rotation-timer service.  Advances every drive's
sector-under-head counter (`(SECT + 1) & 7`), and when the device is
busy and the selected unit has no queued event, schedules its armed
preamble/read-next/write-next with a fixed delay; finally re-arms
itself.  Returns the new state, the `sim_activate_after` calls made for
drive units as (unit, delay) pairs — applying them to the units' queued
flags is the scheduler's business — and the timer's own re-arm delay. -/
def dkt_tmrsvc (s : DktState) : DktState × List (Fin 2 × Nat) × Nat :=
  let units := fun i : Fin 2 =>
    { s.units i with sect := ((s.units i).sect + 1) &&& 7 }
  let s := { s with units := units }
  let sched : List (Fin 2 × Nat) :=
    if s.busy then
      let u := selUnit s
      if ¬(s.units u).active then
        if (s.units u).func = SC_6038_READPREAMB then
          [(u, DKT_SIM_ADDRTIME)]
        else if (s.units u).func = SC_6038_READNEXT then
          [(u, DKT_SIM_ADDRTIME + DKT_SIM_DATATIME)]
        else if (s.units u).func = SC_6038_WRITENEXT then
          [(u, DKT_SIM_ADDRTIME + DKT_SIM_DATATIME)]
        else []
      else []
    else []
  ({ s with tmrActive := true }, sched, DKT_SIM_SECTORTIME)

/-- The `iopC` (clear) path of `dkt()`: clear busy and done, clear all
error flags, cancel the selected unit's queued event unconditionally,
then derive the aggregate error bit. -/
def dkt_clear (s : DktState) : DktState :=
  let u := selUnit s
  let s := { s with busy := false, done := false,
                    sta := clear16 s.sta STA_EFLGS,
                    units := Function.update s.units u
                      { s.units u with active := false } }
  if s.sta &&& STA_FLGS_GENERAL_ERROR ≠ 0 then
    { s with sta := s.sta ||| STA_6038_ERROR }
  else s

/-- `dkt_reset`: clear busy/done, zero all registers, cancel both
drives' events and zero their cylinder/sector/function, then cancel the
rotation timer and re-arm it for one sector interval.  Returns the new
state and the timer delay passed to `sim_activate_after`. -/
def dkt_reset (s : DktState) : DktState × Nat :=
  let s := { s with busy := false, done := false,
                    sc := 0, ma := 0, ca := 0, romaddr := 0, sta := 0 }
  let units := fun i : Fin 2 =>
    { s.units i with active := false, cyl := 0, sect := 0, func := 0 }
  ({ s with units := units, tmrActive := true }, DKT_SIM_SECTORTIME)

/-- Modelled from the spec (§4.4), for comparison with `dkt_tmrsvc`: the
delay the spec claims the timer computes — "the remaining time until the
requested sector reaches the head" plus the fixed address latency (and
the full data latency for an actual transfer). -/
def specRotationalDelay (curSect reqSect : Nat) (transfer : Bool) : Nat :=
  (reqSect + 8 - curSect % 8) % 8 * DKT_SIM_SECTORTIME +
    (if transfer then DKT_SIM_ADDRTIME + DKT_SIM_DATATIME else DKT_SIM_ADDRTIME)

end DKT

/-! ### Concrete example states used by individual claims -/

namespace DHP

/-- A unit with a seek pending: attached, idle, on cylinder 5. -/
def exSeekState : DhpState :=
  { fccy := 512, ussc := 0, ma := 0, map := 0, sta := 0, diagmode := false,
    busy := true, done := false,
    units := fun _ => { att := true, wprt := false, func := 0, cyl := 5, active := false } }

/-- Selected unit 0 has a read in flight (FUNC = FCCY_READ, event queued). -/
def exClearState : DhpState :=
  { fccy := 0, ussc := 0, ma := 0, map := 0, sta := 0, diagmode := false,
    busy := true, done := false,
    units := fun _ => { att := true, wprt := false, func := 0, cyl := 0, active := true } }

/-- Status register holds a stale STA_CYL while the unit sits on a valid
cylinder. -/
def exDiaState : DhpState :=
  { fccy := 0, ussc := 0, ma := 0, map := 0, sta := 32, diagmode := false,
    busy := false, done := false,
    units := fun _ => { att := true, wprt := false, func := 0, cyl := 0, active := false } }

/-- Every unit busy with nonzero cylinder/function, registers nonzero. -/
def exResetState : DhpState :=
  { fccy := 7, ussc := 3, ma := 2, map := 3, sta := 9, diagmode := true,
    busy := true, done := true,
    units := fun _ => { att := true, wprt := false, func := 1, cyl := 5, active := true } }

/-- Selected unit 0 is attached but already has a queued event. -/
def exGoBusyState : DhpState :=
  { fccy := 0, ussc := 0, ma := 0, map := 0, sta := 0, diagmode := false,
    busy := true, done := false,
    units := fun _ => { att := true, wprt := false, func := 0, cyl := 0, active := true } }

end DHP

namespace DKT

/-- Write-next armed on a write-protected drive, with the drive's sector
under the head equal to the requested sector 3
(`sc` = WRITENEXT ∣ 3 << 8). -/
def exWprtWriteState : DktState :=
  { sc := 800, ma := 0, ca := 0, romaddr := 0, sta := 0,
    busy := true, done := false,
    units := fun _ => { att := true, wprt := true, func := 32, cyl := 2, sect := 3,
                        active := false },
    tmrActive := true }

/-- Read-next armed for sector 4 while the head is about to pass from
sector 7 to sector 0 (`sc` = READNEXT ∣ 4 << 8). -/
def exTmrState : DktState :=
  { sc := 1040, ma := 0, ca := 0, romaddr := 0, sta := 0,
    busy := true, done := false,
    units := fun _ => { att := true, wprt := false, func := 16, cyl := 0, sect := 7,
                        active := false },
    tmrActive := true }

/-- Read-next fires with sector 2 under the head while sector 5 was
requested (`sc` = READNEXT ∣ 5 << 8). -/
def exMismatchState : DktState :=
  { sc := 1296, ma := 77, ca := 0, romaddr := 0, sta := 0,
    busy := true, done := false,
    units := fun _ => { att := true, wprt := false, func := 16, cyl := 3, sect := 2,
                        active := false },
    tmrActive := true }

/-- Format armed on a write-protected drive (`sc` = FORMAT0). -/
def exWprtFormatState : DktState :=
  { sc := 160, ma := 0, ca := 0, romaddr := 0, sta := 0,
    busy := true, done := false,
    units := fun _ => { att := true, wprt := true, func := 0, cyl := 0, sect := 0,
                        active := false },
    tmrActive := true }

/-- Selected drive 0 is attached but already has a queued event. -/
def exGoBusyState : DktState :=
  { sc := 0, ma := 0, ca := 0, romaddr := 0, sta := 0,
    busy := true, done := false,
    units := fun _ => { att := true, wprt := false, func := 0, cyl := 0, sect := 0,
                        active := true },
    tmrActive := true }

end DKT

/-! ### Bit-manipulation helper lemmas -/

theorem and_15_eq_mod (x : Nat) : x &&& 15 = x % 16 := by
  have h := Nat.and_pow_two_sub_one_eq_mod x 4
  norm_num at h
  exact h

theorem and_63_eq_mod (x : Nat) : x &&& 63 = x % 64 := by
  have h := Nat.and_pow_two_sub_one_eq_mod x 6
  norm_num at h
  exact h

theorem and_7_eq_mod (x : Nat) : x &&& 7 = x % 8 := by
  have h := Nat.and_pow_two_sub_one_eq_mod x 3
  norm_num at h
  exact h

theorem and_49152_eq (u : Nat) : u &&& 49152 = 16384 * (u / 16384 % 4) := by
  apply Nat.eq_of_testBit_eq
  intro i
  have e4 : u / 16384 = u >>> 14 := by
    rw [Nat.shiftRight_eq_div_pow]
  rw [e4, Nat.testBit_and,
      show (49152 : Nat) = 2 ^ 14 * 3 by norm_num,
      show (16384 : Nat) = 2 ^ 14 by norm_num,
      show (4 : Nat) = 2 ^ 2 by norm_num,
      Nat.testBit_mul_pow_two, Nat.testBit_mul_pow_two,
      Nat.testBit_mod_two_pow, Nat.testBit_shiftRight]
  by_cases h14 : 14 ≤ i
  · have e : 14 + (i - 14) = i := by omega
    simp only [ge_iff_le, h14, e, show (3 : Nat) = 2 ^ 2 - 1 by norm_num,
      Nat.testBit_two_pow_sub_one]
    by_cases h2 : i - 14 < 2 <;> simp [h2, Bool.and_comm]
  · simp [h14]

theorem lor_add_16384 (a b : Nat) (hb : b < 16384) : 16384 * a ||| b = 16384 * a + b := by
  have h2 : b < 2 ^ 14 := by norm_num; omega
  have h := (Nat.mul_add_lt_is_or h2 a).symm
  norm_num at h
  exact h

theorem lor_add_256 (a b : Nat) (hb : b < 256) : 256 * a ||| b = 256 * a + b := by
  have h2 : b < 2 ^ 8 := by norm_num; omega
  have h := (Nat.mul_add_lt_is_or h2 a).symm
  norm_num at h
  exact h

theorem lor_add_16 (a b : Nat) (hb : b < 16) : 16 * a ||| b = 16 * a + b := by
  have h2 : b < 2 ^ 4 := by norm_num; omega
  have h := (Nat.mul_add_lt_is_or h2 a).symm
  norm_num at h
  exact h

theorem or_eq_zero_iff_both (x y : Nat) : x ||| y = 0 ↔ x = 0 ∧ y = 0 := by
  constructor
  · intro h
    have hb : ∀ i, x.testBit i = false ∧ y.testBit i = false := by
      intro i
      have hh := congrArg (fun n => Nat.testBit n i) h
      simpa using hh
    exact ⟨Nat.eq_of_testBit_eq fun i => by simp [(hb i).1],
           Nat.eq_of_testBit_eq fun i => by simp [(hb i).2]⟩
  · rintro ⟨rfl, rfl⟩
    simp

theorem or_ne_zero_right (x b : Nat) (hb : b ≠ 0) : x ||| b ≠ 0 := by
  rw [Ne, or_eq_zero_iff_both]
  exact fun h => hb h.2

theorem and_or_of_disjoint (x m b : Nat) (h : m &&& b = 0) :
    (x ||| m) &&& b = x &&& b := by
  rw [Nat.and_distrib_right, h, Nat.or_zero]

theorem or_and_ne_zero (x m b : Nat) (hmb : m &&& b = b) (hb : b ≠ 0) :
    (x ||| m) &&& b ≠ 0 := by
  rw [Nat.and_distrib_right, hmb]
  exact or_ne_zero_right _ _ hb

theorem and_assoc_and (x m b : Nat) : (x &&& m) &&& b = x &&& (m &&& b) :=
  Nat.and_assoc x m b

theorem and_65472_and_1 (x : Nat) : x &&& 65472 &&& 1 = 0 := by
  rw [Nat.and_assoc, show (65472 &&& 1 : Nat) = 0 from by decide, Nat.and_zero]

theorem and_65472_mod_two (x : Nat) : (x &&& 65472) % 2 = 0 := by
  rw [← Nat.and_one_is_mod]
  exact and_65472_and_1 x

theorem seek_sched_arith (swait n : Nat) (B : Prop) [Decidable B] (hB : B ↔ n = 0) :
    (if ¬swait = 0 ∧ B then swait else swait * n) =
      (if B then swait else swait * n) ∧
    (0 < swait → 0 < if ¬swait = 0 ∧ B then swait else swait * n) := by
  constructor
  · by_cases hB0 : B
    · have h0 : n = 0 := hB.mp hB0
      by_cases hsw : swait = 0 <;> simp [hB0, h0, hsw]
    · simp [hB0]
  · intro hsw
    by_cases hB0 : B
    · rw [if_pos ⟨Nat.pos_iff_ne_zero.mp hsw, hB0⟩]
      exact hsw
    · rw [if_neg (fun h => hB0 h.2)]
      have hn : n ≠ 0 := fun h0 => hB0 (hB.mpr h0)
      exact Nat.mul_pos hsw (Nat.pos_of_ne_zero hn)

namespace DHP

theorem drv6095_newf : drv6095.newf = false := rfl

theorem UPDATE_USSC_norm (u c sf sc : Nat) (hsf : sf < 64) (hsc : sc < 16) :
    UPDATE_USSC drv6095 u c sf sc =
      16384 * (u / 16384 % 4) + 256 * sf + 16 * sc + (u + c) % 16 := by
  unfold UPDATE_USSC
  rw [drv6095_newf]
  simp only [Bool.false_eq_true, if_false]
  rw [and_49152_eq, and_15_eq_mod, Nat.shiftLeft_eq, Nat.shiftLeft_eq]
  norm_num
  rw [Nat.mul_comm sf 256, Nat.mul_comm sc 16]
  rw [Nat.or_assoc, Nat.or_comm ((u + c) % 16) _]
  rw [show 256 * sf ||| 16 * sc ||| (u + c) % 16
        = 256 * sf + 16 * sc + (u + c) % 16 by
      rw [lor_add_256 sf (16 * sc) (by omega),
          show (256 : Nat) * sf + 16 * sc = 16 * (16 * sf + sc) by ring,
          lor_add_16 (16 * sf + sc) ((u + c) % 16) (by omega)]]
  rw [lor_add_16384 (u / 16384 % 4) _ (by omega)]
  ring

theorem GET_SECT_UPDATE (u c sf sc : Nat) (hsf : sf < 64) (hsc : sc < 16) :
    GET_SECT drv6095 (UPDATE_USSC drv6095 u c sf sc) = sc := by
  rw [UPDATE_USSC_norm u c sf sc hsf hsc]
  unfold GET_SECT
  rw [drv6095_newf]
  simp only [Bool.false_eq_true, if_false]
  omega

theorem GET_SURF_UPDATE (u c sf sc : Nat) (hsf : sf < 64) (hsc : sc < 16) :
    GET_SURF drv6095 (UPDATE_USSC drv6095 u c sf sc) = sf := by
  rw [UPDATE_USSC_norm u c sf sc hsf hsc]
  unfold GET_SURF
  rw [drv6095_newf]
  simp only [Bool.false_eq_true, if_false]
  omega

theorem GET_COUNT_UPDATE (u c sf sc : Nat) (hsf : sf < 64) (hsc : sc < 16) :
    GET_COUNT (UPDATE_USSC drv6095 u c sf sc) = (u + c) % 16 := by
  rw [UPDATE_USSC_norm u c sf sc hsf hsc]
  unfold GET_COUNT
  omega

theorem GET_SURF_lt (x : Nat) : GET_SURF drv6095 x < 64 := by
  unfold GET_SURF
  rw [drv6095_newf]
  simp only [Bool.false_eq_true, if_false]
  omega

/-- Peeling the CHS components back out of a linear block address. -/
theorem GET_SA_decompose (G : Drvtyp) (c h s : Nat)
    (hh : h < G.surf) (hs : s < G.sect) :
    GET_SA G c h s % G.sect = s ∧
    GET_SA G c h s / G.sect % G.surf = h ∧
    GET_SA G c h s / G.sect / G.surf = c := by
  have hsect : 0 < G.sect := Nat.pos_of_ne_zero (by omega)
  have hsurf : 0 < G.surf := Nat.pos_of_ne_zero (by omega)
  unfold GET_SA
  rw [Nat.mul_comm (c * G.surf + h) G.sect, Nat.mul_comm c G.surf]
  refine ⟨?_, ?_, ?_⟩
  · rw [Nat.mul_add_mod, Nat.mod_eq_of_lt hs]
  · rw [Nat.mul_add_div hsect, Nat.div_eq_of_lt hs, Nat.add_zero,
        Nat.mul_add_mod, Nat.mod_eq_of_lt hh]
  · rw [Nat.mul_add_div hsect, Nat.div_eq_of_lt hs, Nat.add_zero,
        Nat.mul_add_div hsurf, Nat.div_eq_of_lt hh, Nat.add_zero]

end DHP

/-- **C5** — For every geometry `G` and every triple `(c,h,s)` with
`c < G.cyl`, `h < G.surf`, `s < G.sect`, the linear block address
`(c*G.surf + h)*G.sect + s` computed by `GET_SA` is (1) bounded by
`G.cyl*G.surf*G.sect`, (2) injective on in-range triples, (3) surjective
onto `[0, G.cyl*G.surf*G.sect)`, and (4) strictly monotonic in the
lexicographic order on `(c,h,s)`. -/
theorem C5_GET_SA_bijection_lex_mono (G : DHP.Drvtyp) :
    (∀ c h s, c < G.cyl → h < G.surf → s < G.sect →
        DHP.GET_SA G c h s < G.cyl * G.surf * G.sect) ∧
    (∀ c h s c' h' s', c < G.cyl → h < G.surf → s < G.sect →
        c' < G.cyl → h' < G.surf → s' < G.sect →
        DHP.GET_SA G c h s = DHP.GET_SA G c' h' s' →
        c = c' ∧ h = h' ∧ s = s') ∧
    (∀ n, n < G.cyl * G.surf * G.sect →
        ∃ c h s, c < G.cyl ∧ h < G.surf ∧ s < G.sect ∧
          DHP.GET_SA G c h s = n) ∧
    (∀ c h s c' h' s', c < G.cyl → h < G.surf → s < G.sect →
        c' < G.cyl → h' < G.surf → s' < G.sect →
        (c < c' ∨ (c = c' ∧ h < h') ∨ (c = c' ∧ h = h' ∧ s < s')) →
        DHP.GET_SA G c h s < DHP.GET_SA G c' h' s') := by
  have key : ∀ c h s c' h' s', h < G.surf → s < G.sect →
      h' < G.surf → s' < G.sect →
      (c < c' ∨ (c = c' ∧ h < h') ∨ (c = c' ∧ h = h' ∧ s < s')) →
      DHP.GET_SA G c h s < DHP.GET_SA G c' h' s' := by
    intro c h s c' h' s' hh hs hh' hs' hlex
    unfold DHP.GET_SA
    rcases hlex with hc | ⟨rfl, hhlt⟩ | ⟨rfl, rfl, hslt⟩
    · calc (c * G.surf + h) * G.sect + s
          < (c * G.surf + h + 1) * G.sect := by
            have : (c * G.surf + h + 1) * G.sect
                = (c * G.surf + h) * G.sect + G.sect := by ring
            omega
        _ ≤ (c' * G.surf + h') * G.sect := by
            apply Nat.mul_le_mul_right
            have h1 : c * G.surf + h + 1 ≤ (c + 1) * G.surf := by
              have : (c + 1) * G.surf = c * G.surf + G.surf := by ring
              omega
            have h2 : (c + 1) * G.surf ≤ c' * G.surf :=
              Nat.mul_le_mul_right G.surf hc
            omega
        _ ≤ (c' * G.surf + h') * G.sect + s' := Nat.le_add_right _ _
    · calc (c * G.surf + h) * G.sect + s
          < (c * G.surf + h + 1) * G.sect := by
            have : (c * G.surf + h + 1) * G.sect
                = (c * G.surf + h) * G.sect + G.sect := by ring
            omega
        _ ≤ (c * G.surf + h') * G.sect := Nat.mul_le_mul_right G.sect (by omega)
        _ ≤ (c * G.surf + h') * G.sect + s' := Nat.le_add_right _ _
    · exact Nat.add_lt_add_left hslt _
  refine ⟨?_, ?_, ?_, fun c h s c' h' s' _ hh hs _ hh' hs' hlex =>
    key c h s c' h' s' hh hs hh' hs' hlex⟩
  · intro c h s hc hh hs
    have h1 : c * G.surf + h + 1 ≤ G.cyl * G.surf := by
      have e1 : (c + 1) * G.surf = c * G.surf + G.surf := by ring
      have h2 : (c + 1) * G.surf ≤ G.cyl * G.surf :=
        Nat.mul_le_mul_right G.surf hc
      omega
    have h3 : (c * G.surf + h + 1) * G.sect ≤ G.cyl * G.surf * G.sect :=
      Nat.mul_le_mul_right G.sect h1
    have e2 : (c * G.surf + h + 1) * G.sect
        = (c * G.surf + h) * G.sect + G.sect := by ring
    unfold DHP.GET_SA
    omega
  · intro c h s c' h' s' _ hh hs _ hh' hs' heq
    obtain ⟨e1, e2, e3⟩ := DHP.GET_SA_decompose G c h s hh hs
    obtain ⟨f1, f2, f3⟩ := DHP.GET_SA_decompose G c' h' s' hh' hs'
    rw [heq] at e1 e2 e3
    exact ⟨e3.symm.trans f3, e2.symm.trans f2, e1.symm.trans f1⟩
  · intro n hn
    have htot : 0 < G.cyl * G.surf * G.sect := lt_of_le_of_lt (Nat.zero_le n) hn
    have hsect : 0 < G.sect := by
      rcases Nat.eq_zero_or_pos G.sect with h0 | h0
      · rw [h0, Nat.mul_zero] at htot; omega
      · exact h0
    have hsurf : 0 < G.surf := by
      rcases Nat.eq_zero_or_pos G.surf with h0 | h0
      · rw [h0, Nat.mul_zero, Nat.zero_mul] at htot; omega
      · exact h0
    refine ⟨n / G.sect / G.surf, n / G.sect % G.surf, n % G.sect, ?_, ?_, ?_, ?_⟩
    · have e : n / G.sect / G.surf = n / (G.sect * G.surf) :=
        Nat.div_div_eq_div_mul n G.sect G.surf
      rw [e, Nat.div_lt_iff_lt_mul (Nat.mul_pos hsect hsurf)]
      calc n < G.cyl * G.surf * G.sect := hn
        _ = G.cyl * (G.sect * G.surf) := by ring
    · exact Nat.mod_lt _ hsurf
    · exact Nat.mod_lt _ hsect
    · unfold DHP.GET_SA
      have d1 := Nat.div_add_mod n G.sect
      have d2 := Nat.div_add_mod (n / G.sect) G.surf
      calc (n / G.sect / G.surf * G.surf + n / G.sect % G.surf) * G.sect + n % G.sect
          = G.sect * (G.surf * (n / G.sect / G.surf) + n / G.sect % G.surf)
              + n % G.sect := by ring
        _ = G.sect * (n / G.sect) + n % G.sect := by rw [d2]
        _ = n := d1

/-- Witness for C5 at the 6095 geometry. -/
theorem C5_witness :
    DHP.GET_SA DHP.drv6095 1 2 3
      < DHP.drv6095.cyl * DHP.drv6095.surf * DHP.drv6095.sect :=
  (C5_GET_SA_bijection_lex_mono DHP.drv6095).1 1 2 3
    (by norm_num [DHP.drv6095]) (by norm_num [DHP.drv6095])
    (by norm_num [DHP.drv6095])

/-- **C4** — During a multi-sector hard-disk read/write, when the sector
number reaches the geometry's sector count it rolls over to zero and the
surface number is incremented (modulo its 6-bit field); if the
incremented surface number equals or exceeds the geometry's surface
count, the cross-cylinder, error and done bits are set and the transfer
loop halts in place: no further sector is transferred and the overflowed
surface number is retained. -/
theorem C4_dhp_rw_surface_overflow (cyl fuel ussc sta : Nat) (acc : List Nat)
    (newsurf ussc1 : Nat)
    (hns : newsurf = (DHP.GET_SURF DHP.drv6095 ussc + 1) &&& 63)
    (h1 : ussc1 = DHP.UPDATE_USSC DHP.drv6095 ussc 0 newsurf 0)
    (hsect : DHP.GET_SECT DHP.drv6095 ussc ≥ DHP.drv6095.sect)
    (hsurf : DHP.GET_SURF DHP.drv6095 ussc1 ≥ DHP.drv6095.surf) :
    DHP.GET_SECT DHP.drv6095 ussc1 = 0 ∧
    DHP.GET_SURF DHP.drv6095 ussc1 = (DHP.GET_SURF DHP.drv6095 ussc + 1) % 64 ∧
    DHP.dhp_rwLoop cyl (fuel + 1) ussc sta acc =
      (ussc1, sta ||| (DHP.STA_DONE ||| DHP.STA_ERR ||| DHP.STA_XCY), acc) ∧
    (sta ||| (DHP.STA_DONE ||| DHP.STA_ERR ||| DHP.STA_XCY)) &&& DHP.STA_XCY ≠ 0 ∧
    (sta ||| (DHP.STA_DONE ||| DHP.STA_ERR ||| DHP.STA_XCY)) &&& DHP.STA_ERR ≠ 0 ∧
    (sta ||| (DHP.STA_DONE ||| DHP.STA_ERR ||| DHP.STA_XCY)) &&& DHP.STA_DONE ≠ 0 := by
  subst hns
  subst h1
  have hns64 : (DHP.GET_SURF DHP.drv6095 ussc + 1) &&& 63 < 64 := by
    rw [and_63_eq_mod]
    omega
  refine ⟨?_, ?_, ?_, ?_, ?_, ?_⟩
  · exact DHP.GET_SECT_UPDATE ussc 0 _ 0 hns64 (by norm_num)
  · rw [DHP.GET_SURF_UPDATE ussc 0 _ 0 hns64 (by norm_num), and_63_eq_mod]
  · simp only [DHP.dhp_rwLoop]
    simp [hsect, hsurf]
  · exact or_and_ne_zero sta _ _ (by decide) (by decide)
  · exact or_and_ne_zero sta _ _ (by decide) (by decide)
  · exact or_and_ne_zero sta _ _ (by decide) (by decide)

/-- **C3** — For every accepted hard-disk seek (including recalibrate,
which targets cylinder 0), the scheduled delay is the per-cylinder seek
wait times the absolute cylinder difference, floored to one seek-wait
unit when the difference is zero; with a positive seek wait the delay is
never zero. -/
theorem C3_dhp_seek_delay (swait rwait : Nat) (s : DHP.DhpState)
    (hatt : (s.units (DHP.selUnit s)).att = true)
    (hact : (s.units (DHP.selUnit s)).active = false)
    (hdiag : s.diagmode = false)
    (hcmd : DHP.GET_CMD DHP.drv6095 s.fccy = DHP.FCCY_SEEK ∨
            DHP.GET_CMD DHP.drv6095 s.fccy = DHP.FCCY_RECAL)
    (hcyl : (if DHP.GET_CMD DHP.drv6095 s.fccy = DHP.FCCY_RECAL then 0
             else DHP.GET_CYL DHP.drv6095 s.fccy) < DHP.drv6095.cyl) :
    (DHP.dhp_go swait rwait DHP.iopP s).2.1 =
      some (swait *
        (if (((s.units (DHP.selUnit s)).cyl : Int) -
             ((if DHP.GET_CMD DHP.drv6095 s.fccy = DHP.FCCY_RECAL then 0
               else DHP.GET_CYL DHP.drv6095 s.fccy : Nat) : Int)).natAbs = 0
         then 1
         else (((s.units (DHP.selUnit s)).cyl : Int) -
             ((if DHP.GET_CMD DHP.drv6095 s.fccy = DHP.FCCY_RECAL then 0
               else DHP.GET_CYL DHP.drv6095 s.fccy : Nat) : Int)).natAbs)) ∧
    (0 < swait → ∀ d, (DHP.dhp_go swait rwait DHP.iopP s).2.1 = some d → 0 < d) := by
  rcases hcmd with hc | hc
  · rw [hc, if_neg (by norm_num [DHP.FCCY_SEEK, DHP.FCCY_RECAL])] at hcyl
    simp only [DHP.selUnit] at hatt hact
    constructor
    · simp [DHP.dhp_go, DHP.selUnit, DHP.clear16, hc, hatt, hact, hdiag,
        DHP.FCCY_SEEK, DHP.FCCY_RECAL, DHP.FCCY_READ, DHP.FCCY_WRITE,
        DHP.iopP, DHP.iopS, DHP.STA_EFLGS, DHP.STA_ERR,
        Nat.not_le.mpr hcyl, and_65472_and_1, and_65472_mod_two]
      exact (seek_sched_arith swait _ _ Int.natAbs_eq_zero.symm).1
    · simp [DHP.dhp_go, DHP.selUnit, DHP.clear16, hc, hatt, hact, hdiag,
        DHP.FCCY_SEEK, DHP.FCCY_RECAL, DHP.FCCY_READ, DHP.FCCY_WRITE,
        DHP.iopP, DHP.iopS, DHP.STA_EFLGS, DHP.STA_ERR,
        Nat.not_le.mpr hcyl, and_65472_and_1, and_65472_mod_two]
      exact (seek_sched_arith swait _ _ Int.natAbs_eq_zero.symm).2
  · rw [hc, if_pos rfl] at hcyl
    simp only [DHP.selUnit] at hatt hact
    constructor
    · simp [DHP.dhp_go, DHP.selUnit, DHP.clear16, hc, hatt, hact, hdiag,
        DHP.FCCY_SEEK, DHP.FCCY_RECAL, DHP.FCCY_READ, DHP.FCCY_WRITE,
        DHP.iopP, DHP.iopS, DHP.STA_EFLGS, DHP.STA_ERR,
        show DHP.drv6095.cyl = 408 from rfl,
        and_65472_and_1, and_65472_mod_two]
      exact (seek_sched_arith swait _ _ Iff.rfl).1
    · simp [DHP.dhp_go, DHP.selUnit, DHP.clear16, hc, hatt, hact, hdiag,
        DHP.FCCY_SEEK, DHP.FCCY_RECAL, DHP.FCCY_READ, DHP.FCCY_WRITE,
        DHP.iopP, DHP.iopS, DHP.STA_EFLGS, DHP.STA_ERR,
        show DHP.drv6095.cyl = 408 from rfl,
        and_65472_and_1, and_65472_mod_two]
      exact (seek_sched_arith swait _ _ Iff.rfl).2

/-- Witness for C3: a seek from cylinder 5 to cylinder 0 with seek wait
100 schedules delay 100 × 5. -/
theorem C3_witness :
    (DHP.dhp_go 100 50 DHP.iopP DHP.exSeekState).2.1 =
      some (100 *
        (if (((DHP.exSeekState.units (DHP.selUnit DHP.exSeekState)).cyl : Int) -
             ((if DHP.GET_CMD DHP.drv6095 DHP.exSeekState.fccy = DHP.FCCY_RECAL then 0
               else DHP.GET_CYL DHP.drv6095 DHP.exSeekState.fccy : Nat) : Int)).natAbs = 0
         then 1
         else (((DHP.exSeekState.units (DHP.selUnit DHP.exSeekState)).cyl : Int) -
             ((if DHP.GET_CMD DHP.drv6095 DHP.exSeekState.fccy = DHP.FCCY_RECAL then 0
               else DHP.GET_CYL DHP.drv6095 DHP.exSeekState.fccy : Nat) : Int)).natAbs)) ∧
    (0 < 100 → ∀ d, (DHP.dhp_go 100 50 DHP.iopP DHP.exSeekState).2.1 = some d → 0 < d) :=
  C3_dhp_seek_delay 100 50 DHP.exSeekState (by decide) (by decide) (by decide)
    (Or.inl (by decide)) (by decide)

/-- Witness for C4: with sector field 12 and surface field 3 the loop
overflows into surface 4 = SURF_6095 and halts with XCY, ERR and DONE. -/
theorem C4_witness :
    DHP.GET_SECT DHP.drv6095 1024 = 0 ∧
    DHP.GET_SURF DHP.drv6095 1024 = (DHP.GET_SURF DHP.drv6095 960 + 1) % 64 ∧
    DHP.dhp_rwLoop 0 (0 + 1) 960 0 [] =
      (1024, 0 ||| (DHP.STA_DONE ||| DHP.STA_ERR ||| DHP.STA_XCY), []) ∧
    (0 ||| (DHP.STA_DONE ||| DHP.STA_ERR ||| DHP.STA_XCY)) &&& DHP.STA_XCY ≠ 0 ∧
    (0 ||| (DHP.STA_DONE ||| DHP.STA_ERR ||| DHP.STA_XCY)) &&& DHP.STA_ERR ≠ 0 ∧
    (0 ||| (DHP.STA_DONE ||| DHP.STA_ERR ||| DHP.STA_XCY)) &&& DHP.STA_DONE ≠ 0 :=
  C4_dhp_rw_surface_overflow 0 0 960 0 [] 4 1024 (by decide) (by decide)
    (by decide) (by decide)

/-- The hard-disk dispatcher rejects when the selected unit is
unattached or already active: error bit set, nothing scheduled, FALSE
returned. -/
theorem dhp_go_reject (swait rwait pulse : Nat) (s : DHP.DhpState)
    (hs : (s.units (DHP.selUnit s)).att = false ∨
          (s.units (DHP.selUnit s)).active = true) :
    (DHP.dhp_go swait rwait pulse s).1.sta &&& DHP.STA_ERR ≠ 0 ∧
    (DHP.dhp_go swait rwait pulse s).2.1 = none ∧
    (DHP.dhp_go swait rwait pulse s).2.2 = false := by
  simp only [DHP.selUnit] at hs
  rcases hs with h | h <;>
    refine ⟨?_, ?_, ?_⟩ <;>
    simp [DHP.dhp_go, DHP.selUnit, DHP.clear16, DHP.STA_EFLGS, DHP.STA_ERR, h,
      Nat.and_one_is_mod]

/-- The floppy dispatcher rejects when the selected drive is unattached
or already active. -/
theorem dkt_go_reject (settle step rwait : Nat) (t : DKT.DktState)
    (ht : (t.units (DKT.selUnit t)).att = false ∨
          (t.units (DKT.selUnit t)).active = true) :
    (DKT.dkt_go settle step rwait t).1.sta &&& DKT.STA_6038_ERROR ≠ 0 ∧
    (DKT.dkt_go settle step rwait t).2.1 = none ∧
    (DKT.dkt_go settle step rwait t).2.2 = false := by
  simp only [DKT.selUnit] at ht
  rcases ht with h | h <;>
    refine ⟨?_, ?_, ?_⟩ <;>
    simp [DKT.dkt_go, DKT.selUnit, DKT.clear16, DKT.STA_EFLGS, DKT.STA_6038_ERROR, h,
      Nat.and_one_is_mod]

/-- **C6** — If the selected unit of either controller is not attached
or already has a queued event, the dispatcher sets the error bit,
returns failure, and schedules nothing, so a second start attempt is
rejected rather than queued. -/
theorem C6_dispatch_rejects (swait rwait pulse settle step frwait : Nat)
    (s : DHP.DhpState) (t : DKT.DktState)
    (hs : (s.units (DHP.selUnit s)).att = false ∨
          (s.units (DHP.selUnit s)).active = true)
    (ht : (t.units (DKT.selUnit t)).att = false ∨
          (t.units (DKT.selUnit t)).active = true) :
    (DHP.dhp_go swait rwait pulse s).1.sta &&& DHP.STA_ERR ≠ 0 ∧
    (DHP.dhp_go swait rwait pulse s).2.1 = none ∧
    (DHP.dhp_go swait rwait pulse s).2.2 = false ∧
    (DKT.dkt_go settle step frwait t).1.sta &&& DKT.STA_6038_ERROR ≠ 0 ∧
    (DKT.dkt_go settle step frwait t).2.1 = none ∧
    (DKT.dkt_go settle step frwait t).2.2 = false := by
  obtain ⟨a1, a2, a3⟩ := dhp_go_reject swait rwait pulse s hs
  obtain ⟨b1, b2, b3⟩ := dkt_go_reject settle step frwait t ht
  exact ⟨a1, a2, a3, b1, b2, b3⟩

/-- Witness for C6: both dispatchers reject a start on a unit that
already has a queued event. -/
theorem C6_witness :
    (DHP.dhp_go 100 100 DHP.iopS DHP.exGoBusyState).1.sta &&& DHP.STA_ERR ≠ 0 ∧
    (DHP.dhp_go 100 100 DHP.iopS DHP.exGoBusyState).2.1 = none ∧
    (DHP.dhp_go 100 100 DHP.iopS DHP.exGoBusyState).2.2 = false ∧
    (DKT.dkt_go 10 1 100 DKT.exGoBusyState).1.sta &&& DKT.STA_6038_ERROR ≠ 0 ∧
    (DKT.dkt_go 10 1 100 DKT.exGoBusyState).2.1 = none ∧
    (DKT.dkt_go 10 1 100 DKT.exGoBusyState).2.2 = false :=
  C6_dispatch_rejects 100 100 DHP.iopS 10 1 100 DHP.exGoBusyState DKT.exGoBusyState
    (Or.inr (by decide)) (Or.inr (by decide))

theorem and_65471_and_64 (x : Nat) : x &&& 65471 &&& 64 = 0 := by
  rw [Nat.and_assoc, show (65471 &&& 64 : Nat) = 0 from by decide, Nat.and_zero]

theorem and_65471_and_32 (x : Nat) : x &&& 65471 &&& 32 = x &&& 32 := by
  rw [Nat.and_assoc, show (65471 &&& 32 : Nat) = 32 from by decide]

theorem or64_and64_ne (x : Nat) : (x ||| 64) &&& 64 ≠ 0 :=
  or_and_ne_zero x 64 64 (by decide) (by decide)

theorem or32_and64 (x : Nat) : (x ||| 32) &&& 64 = x &&& 64 :=
  and_or_of_disjoint x 32 64 (by decide)

theorem or1_and64 (x : Nat) : (x ||| 1) &&& 64 = x &&& 64 :=
  and_or_of_disjoint x 1 64 (by decide)

theorem or64_and32 (x : Nat) : (x ||| 64) &&& 32 = x &&& 32 :=
  and_or_of_disjoint x 64 32 (by decide)

theorem or32_and32_ne (x : Nat) : (x ||| 32) &&& 32 ≠ 0 :=
  or_and_ne_zero x 32 32 (by decide) (by decide)

theorem or1_and32 (x : Nat) : (x ||| 1) &&& 32 = x &&& 32 :=
  and_or_of_disjoint x 1 32 (by decide)

/-- **C7 counterexample** — with a stale STA_CYL in the status register
and the unit sitting on cylinder 0 (< 408), a DIA status read still
returns STA_CYL set, so "bad-cylinder set iff the current cylinder is
out of range" is false: the bit is sticky, not recomputed. -/
theorem C7_counterexample :
    (DHP.exDiaState.units (DHP.selUnit DHP.exDiaState)).cyl < DHP.drv6095.cyl ∧
    (DHP.exDiaState.units (DHP.selUnit DHP.exDiaState)).att = true ∧
    (DHP.dhp_dia DHP.exDiaState).2 &&& DHP.STA_CYL ≠ 0 := by
  refine ⟨by decide, by decide, by decide⟩

/-- **C7 amended** — every DIA read recomputes drive-ready live (set iff
the unit is attached), but the bad-cylinder bit is only ORed in: the
returned status has STA_CYL set iff it was already set in the status
register or the unit's cylinder is at or beyond the geometry's cylinder
count; the returned value is also stored back to the status register. -/
theorem C7_dia_status (s : DHP.DhpState) :
    ((DHP.dhp_dia s).2 &&& DHP.STA_DRDY ≠ 0 ↔
      (s.units (DHP.selUnit s)).att = true) ∧
    ((DHP.dhp_dia s).2 &&& DHP.STA_CYL ≠ 0 ↔
      (s.sta &&& DHP.STA_CYL ≠ 0 ∨
        (s.units (DHP.selUnit s)).cyl ≥ DHP.drv6095.cyl)) ∧
    (DHP.dhp_dia s).1.sta = (DHP.dhp_dia s).2 := by
  refine ⟨?_, ?_, rfl⟩ <;>
    simp only [DHP.dhp_dia, DHP.clear16, DHP.STA_DRDY, DHP.STA_CYL,
      DHP.STA_EFLGS, DHP.STA_ERR,
      show (65535 ^^^ 64 : Nat) = 65471 from by decide] <;>
    by_cases ha : (s.units (DHP.selUnit s)).att = true <;>
    by_cases hcy : (s.units (DHP.selUnit s)).cyl ≥ DHP.drv6095.cyl <;>
    split_ifs <;>
    simp_all [and_65471_and_64, and_65471_and_32, or64_and64_ne, or32_and64,
      or1_and64, or64_and32, or32_and32_ne, or1_and32]

theorem clear16_self_zero (x m : Nat) (h : (65535 ^^^ m) &&& m = 0) :
    DHP.clear16 x m &&& m = 0 := by
  unfold DHP.clear16
  rw [Nat.and_assoc, h, Nat.and_zero]

/-- **C1 counterexample** — with the selected unit's pending function a
read (a data transfer) and an event queued, the clear pulse *does*
cancel the queued event, refuting "a unit whose pending function is a
read or write data transfer keeps its scheduled event". -/
theorem C1_counterexample :
    (DHP.exClearState.units (DHP.selUnit DHP.exClearState)).func = DHP.FCCY_READ ∧
    (DHP.exClearState.units (DHP.selUnit DHP.exClearState)).active = true ∧
    ((DHP.dhp_clear DHP.exClearState).units
        (DHP.selUnit DHP.exClearState)).active = false := by
  refine ⟨by decide, by decide, by decide⟩

/-- **C1 amended** — the clear pulse clears busy, done and all done/error
status bits unconditionally, and cancels the selected unit's queued
event exactly when its pending function is *not* a seek: a pending seek
keeps its scheduled event, while a read/write transfer's event is
cancelled. -/
theorem C1_dhp_clear_behavior (s : DHP.DhpState) :
    (DHP.dhp_clear s).busy = false ∧
    (DHP.dhp_clear s).done = false ∧
    (DHP.dhp_clear s).sta &&& (DHP.STA_DFLGS + DHP.STA_EFLGS) = 0 ∧
    ((s.units (DHP.selUnit s)).func = DHP.FCCY_SEEK →
      (DHP.dhp_clear s).units (DHP.selUnit s) = s.units (DHP.selUnit s)) ∧
    ((s.units (DHP.selUnit s)).func ≠ DHP.FCCY_SEEK →
      ((DHP.dhp_clear s).units (DHP.selUnit s)).active = false) := by
  refine ⟨?_, ?_, ?_, ?_, ?_⟩
  · simp only [DHP.dhp_clear]
    split_ifs <;> rfl
  · simp only [DHP.dhp_clear]
    split_ifs <;> rfl
  · simp only [DHP.dhp_clear]
    split_ifs <;> exact clear16_self_zero s.sta _ (by decide)
  · intro hf
    simp [DHP.dhp_clear, hf]
  · intro hf
    simp [DHP.dhp_clear, hf]

/-- Witness for C1's amended theorem: on the concrete read-in-flight
state the clear pulse cancels the queued event. -/
theorem C1_witness :
    ((DHP.dhp_clear DHP.exClearState).units
        (DHP.selUnit DHP.exClearState)).active = false :=
  (C1_dhp_clear_behavior DHP.exClearState).2.2.2.2 (by decide)

/-- **C2 (code bug)** — a write-next to a write-protected floppy drive
whose requested sector is under the head performs the backing-file write
(an `fxwrite` happens: the trace contains `writeSector`) and completes
without the write-fault bit; and a format on a write-protected drive is
rejected with `dkt_sta & STA_6038_WRITEPROT` (a bitwise AND that clears
the status register) rather than an error indication.  The claim's
"write-fault error, file never written" is violated by the code. -/
theorem C2_wprt_write_bug :
    (DKT.exWprtWriteState.units 0).wprt = true ∧
    (DKT.exWprtWriteState.units 0).func = DKT.SC_6038_WRITENEXT ∧
    (DKT.dkt_svc 0 DKT.exWprtWriteState).2 =
      [DKT.DktAction.writeSector (DKT.GET_SA 2 0 3)] ∧
    (DKT.dkt_svc 0 DKT.exWprtWriteState).1.sta &&& DKT.STA_6038_WRITEFAULT = 0 ∧
    (DKT.dkt_svc 0 DKT.exWprtWriteState).1.sta &&& DKT.STA_6038_ERROR = 0 ∧
    (DKT.exWprtFormatState.units 0).wprt = true ∧
    (DKT.dkt_go 10 1 100 DKT.exWprtFormatState).2.2 = false ∧
    (DKT.dkt_go 10 1 100 DKT.exWprtFormatState).1.sta = 0 := by
  refine ⟨by decide, by decide, by decide, by decide, by decide, by decide,
    by decide, by decide⟩

/-- **C9 counterexample** — after `dhp_reset`, selectable unit 1 keeps
its queued event and nonzero cylinder/function (the reset loop runs over
`DHP_NUMDR = 1` units only), refuting "no unit has a pending scheduled
event, every unit's current cylinder and function are zero". -/
theorem C9_counterexample :
    ((DHP.dhp_reset DHP.exResetState).units 1).active = true ∧
    ((DHP.dhp_reset DHP.exResetState).units 1).cyl = 5 ∧
    ((DHP.dhp_reset DHP.exResetState).units 1).func = 1 := by
  refine ⟨by decide, by decide, by decide⟩

/-- **C9 amended** — after reset all controller registers are zero and
busy/done are clear; the hard-disk reset loop covers its declared drive
count (`DHP_NUMDR = 1`), cancelling unit 0's event and zeroing its
cylinder and function (units 1-3 of the four-entry array are not
touched); the floppy reset cancels and zeroes both drives and re-arms
the rotation timer for one sector interval. -/
theorem C9_reset_effects (s : DHP.DhpState) (t : DKT.DktState) :
    (DHP.dhp_reset s).fccy = 0 ∧ (DHP.dhp_reset s).ussc = 0 ∧
    (DHP.dhp_reset s).ma = 0 ∧ (DHP.dhp_reset s).sta = 0 ∧
    (DHP.dhp_reset s).map = 0 ∧ (DHP.dhp_reset s).diagmode = false ∧
    (DHP.dhp_reset s).busy = false ∧ (DHP.dhp_reset s).done = false ∧
    ((DHP.dhp_reset s).units 0).active = false ∧
    ((DHP.dhp_reset s).units 0).cyl = 0 ∧
    ((DHP.dhp_reset s).units 0).func = 0 ∧
    (DKT.dkt_reset t).1.sc = 0 ∧ (DKT.dkt_reset t).1.ma = 0 ∧
    (DKT.dkt_reset t).1.ca = 0 ∧ (DKT.dkt_reset t).1.romaddr = 0 ∧
    (DKT.dkt_reset t).1.sta = 0 ∧ (DKT.dkt_reset t).1.busy = false ∧
    (DKT.dkt_reset t).1.done = false ∧
    (∀ i : Fin 2, ((DKT.dkt_reset t).1.units i).active = false ∧
      ((DKT.dkt_reset t).1.units i).cyl = 0 ∧
      ((DKT.dkt_reset t).1.units i).sect = 0 ∧
      ((DKT.dkt_reset t).1.units i).func = 0) ∧
    (DKT.dkt_reset t).1.tmrActive = true ∧
    (DKT.dkt_reset t).2 = DKT.DKT_SIM_SECTORTIME := by
  refine ⟨rfl, rfl, rfl, rfl, rfl, rfl, rfl, rfl, ?_, ?_, ?_, rfl, rfl, rfl,
    rfl, rfl, rfl, rfl, fun i => ⟨rfl, rfl, rfl, rfl⟩, rfl, rfl⟩ <;>
    simp [DHP.dhp_reset]

/-- **C8 counterexample** — with read-next armed for sector 4 while the
head advances from sector 7 to sector 0, the timer schedules the service
routine after the *fixed* address-plus-data latency (495), not after the
remaining rotational time until sector 4 reaches the head (2495 per the
spec's description), so "computes the remaining time until the requested
sector reaches the head and schedules ... for that delay" is false. -/
theorem C8_counterexample :
    (DKT.dkt_tmrsvc DKT.exTmrState).2.1 =
      [(0, DKT.DKT_SIM_ADDRTIME + DKT.DKT_SIM_DATATIME)] ∧
    ((DKT.exTmrState.units 0).sect + 1) &&& 7 = 0 ∧
    DKT.SC_6038_GET_SECT DKT.exTmrState.sc = 4 ∧
    DKT.specRotationalDelay 0 4 true = 2495 ∧
    DKT.DKT_SIM_ADDRTIME + DKT.DKT_SIM_DATATIME ≠
      DKT.specRotationalDelay 0 4 true := by
  refine ⟨by decide, by decide, by decide, by decide, by decide⟩

/-- **C8 amended** — on each rotation-timer tick every drive's
sector-under-head counter advances modulo 8 and the timer re-arms itself
for one sector interval; if the device is busy and the selected unit has
no queued event, its armed operation is scheduled after a *fixed* delay
measured from the tick — the address latency for a preamble read, the
address latency plus the full data latency for read-next/write-next —
irrespective of the requested sector (the requested-sector check is
deferred to the event service routine). -/
theorem C8_tmrsvc_behavior (t : DKT.DktState) :
    (∀ i : Fin 2, ((DKT.dkt_tmrsvc t).1.units i).sect =
      ((t.units i).sect + 1) &&& 7) ∧
    (DKT.dkt_tmrsvc t).1.tmrActive = true ∧
    (DKT.dkt_tmrsvc t).2.2 = DKT.DKT_SIM_SECTORTIME ∧
    (DKT.dkt_tmrsvc t).2.1 =
      (if t.busy = true ∧ (t.units (DKT.selUnit t)).active = false then
        (if (t.units (DKT.selUnit t)).func = DKT.SC_6038_READPREAMB then
          [(DKT.selUnit t, DKT.DKT_SIM_ADDRTIME)]
        else if (t.units (DKT.selUnit t)).func = DKT.SC_6038_READNEXT ∨
            (t.units (DKT.selUnit t)).func = DKT.SC_6038_WRITENEXT then
          [(DKT.selUnit t, DKT.DKT_SIM_ADDRTIME + DKT.DKT_SIM_DATATIME)]
        else [])
      else []) := by
  refine ⟨fun i => rfl, rfl, rfl, ?_⟩
  by_cases hb : t.busy = true <;>
  by_cases ha : (t.units (DKT.selUnit t)).active = true <;>
  by_cases h8 : (t.units (DKT.selUnit t)).func = DKT.SC_6038_READPREAMB <;>
  by_cases h16 : (t.units (DKT.selUnit t)).func = DKT.SC_6038_READNEXT <;>
  by_cases h32 : (t.units (DKT.selUnit t)).func = DKT.SC_6038_WRITENEXT <;>
  simp_all [DKT.dkt_tmrsvc, DKT.selUnit, DKT.SC_6038_READPREAMB,
    DKT.SC_6038_READNEXT, DKT.SC_6038_WRITENEXT]

theorem or16384_and62 (x : Nat) : (x ||| 16384) &&& 62 = x &&& 62 :=
  and_or_of_disjoint x 16384 62 (by decide)

theorem and49151_and62 (x : Nat) : x &&& 49151 &&& 62 = x &&& 62 := by
  rw [Nat.and_assoc, show (49151 &&& 62 : Nat) = 62 from by decide]

theorem or_and_ne_zero_of (x m b : Nat) (h : m &&& b ≠ 0) :
    (x ||| m) &&& b ≠ 0 := by
  rw [Nat.and_distrib_right, Ne, or_eq_zero_iff_both]
  exact fun hz => h hz.2

theorem or16_and62_ne (x : Nat) : (x ||| 16) &&& 62 ≠ 0 :=
  or_and_ne_zero_of x 16 62 (by decide)

theorem or1_and16 (x : Nat) : (x ||| 1) &&& 16 = x &&& 16 :=
  and_or_of_disjoint x 1 16 (by decide)

theorem or16384_and16 (x : Nat) : (x ||| 16384) &&& 16 = x &&& 16 :=
  and_or_of_disjoint x 16384 16 (by decide)

theorem and49151_and16 (x : Nat) : x &&& 49151 &&& 16 = x &&& 16 := by
  rw [Nat.and_assoc, show (49151 &&& 16 : Nat) = 16 from by decide]

theorem or16_and16_ne (x : Nat) : (x ||| 16) &&& 16 ≠ 0 :=
  or_and_ne_zero x 16 16 (by decide) (by decide)

theorem or1_and1_ne (x : Nat) : (x ||| 1) &&& 1 ≠ 0 :=
  or_and_ne_zero x 1 1 (by decide) (by decide)

/-- **C10** — when a floppy read-next/write-next event fires with the
sector under the head different from the requested sector, the
controller sets the sector-address-mismatch bit and the aggregate error
bit, records the current track/sector in the current-address register,
performs no backing-file I/O and no memory transfer (the memory-address
register is unchanged), and still completes (busy clear, done set). -/
theorem C10_dkt_sector_mismatch (u : Fin 2) (t : DKT.DktState)
    (hf : (t.units u).func = DKT.SC_6038_READNEXT ∨
          (t.units u).func = DKT.SC_6038_WRITENEXT)
    (hm : (t.units u).sect ≠ DKT.SC_6038_GET_SECT t.sc) :
    (DKT.dkt_svc u t).1.sta &&& DKT.STA_6038_SECTORERR ≠ 0 ∧
    (DKT.dkt_svc u t).1.sta &&& DKT.STA_6038_ERROR ≠ 0 ∧
    (DKT.dkt_svc u t).1.ca =
      DKT.CA_6038_SETADDR (t.units u).cyl (t.units u).sect ∧
    (DKT.dkt_svc u t).2 = [] ∧
    (DKT.dkt_svc u t).1.ma = t.ma ∧
    (DKT.dkt_svc u t).1.done = true ∧
    (DKT.dkt_svc u t).1.busy = false := by
  rcases hf with hf | hf <;>
  by_cases hc : (t.units u).cyl = 0 <;>
    refine ⟨?_, ?_, ?_, ?_, ?_, ?_, ?_⟩ <;>
    simp [DKT.dkt_svc, DKT.clear16, hf, hm, hc, DKT.SC_6038_SETTLE,
      DKT.SC_6038_STEPIN, DKT.SC_6038_STEPOUT, DKT.SC_6038_READPREAMB,
      DKT.SC_6038_READNEXT, DKT.SC_6038_WRITENEXT, DKT.SC_6038_FORMAT0,
      DKT.SC_6038_FORMATNEXT, DKT.STA_6038_SECTORERR, DKT.STA_6038_ERROR,
      DKT.STA_FLGS_GENERAL_ERROR, DKT.STA_6038_TRACK0,
      show (65535 ^^^ 16384 : Nat) = 49151 from by decide,
      or16384_and62, and49151_and62, or16_and62_ne, or1_and16,
      or16384_and16, and49151_and16, or16_and16_ne, or1_and1_ne]

/-- Witness for C10: read-next armed for sector 5 fires with sector 2
under the head. -/
theorem C10_witness :
    (DKT.dkt_svc 0 DKT.exMismatchState).1.sta &&& DKT.STA_6038_SECTORERR ≠ 0 ∧
    (DKT.dkt_svc 0 DKT.exMismatchState).1.sta &&& DKT.STA_6038_ERROR ≠ 0 ∧
    (DKT.dkt_svc 0 DKT.exMismatchState).1.ca =
      DKT.CA_6038_SETADDR (DKT.exMismatchState.units 0).cyl
        (DKT.exMismatchState.units 0).sect ∧
    (DKT.dkt_svc 0 DKT.exMismatchState).2 = [] ∧
    (DKT.dkt_svc 0 DKT.exMismatchState).1.ma = DKT.exMismatchState.ma ∧
    (DKT.dkt_svc 0 DKT.exMismatchState).1.done = true ∧
    (DKT.dkt_svc 0 DKT.exMismatchState).1.busy = false :=
  C10_dkt_sector_mismatch 0 DKT.exMismatchState (Or.inl (by decide)) (by decide)
